import Mathlib

/-!
Verification of the wine-origin prediction pipeline (src/api/main.py).

The pipeline (function `predict_wine_origin`, lines 110-168) assembles a
feature vector from a TF-IDF text vector, a one-hot variety vector and a
scaled numeric pair, feeds it to two fitted classifiers, averages their
per-class probability vectors, and returns the arg-max class together with
a confidence map.  We embed the pipeline shallowly: fitted artifacts become
structures carrying the functions the pipeline calls on them, numbers are
rationals, and Python exceptions become `Except String` errors.
-/

/-- Raw validated wine input, mirroring the `WineInput` pydantic model
(description, points, price, variety). -/
structure WineInput where
  description : String
  points : ℚ
  price : ℚ
  variety : String

/-- A fitted TF-IDF vectorizer: the pipeline only calls
`tfidf_vectorizer.transform([desc]).toarray()`, returning one row of a
fixed width.  `width` is the size of the fitted vocabulary. -/
structure TfidfVectorizer where
  width : ℕ
  transform : String → List ℚ

/-- A fitted one-hot encoder over the variety categories seen at training
time (`variety_encoder`).  `categories` is the ordered category list; the
width of `get_feature_names_out` equals its length. -/
structure OneHotEncoder where
  categories : List String

/-- The `variety_encoder.transform([[v]])` call: a one-hot row over the
fitted categories for a known category, and a `ValueError` (modelled as
`none`) for a category not seen at training time. -/
def oneHotTransform (enc : OneHotEncoder) (v : String) : Option (List ℚ) :=
  if v ∈ enc.categories then
    some (enc.categories.map (fun c => if c = v then (1 : ℚ) else 0))
  else
    none

/-- Lines 128-132: the pipeline tries to encode the variety and, on the
`ValueError` raised for an unseen category, substitutes
`np.zeros((1, C))` where `C` is the encoder output width. -/
def encodeVarietyOrZero (enc : OneHotEncoder) (v : String) : List ℚ :=
  match oneHotTransform enc v with
  | some xs => xs
  | none => List.replicate enc.categories.length 0

/-- A fitted standard scaler over the two numeric features, in the fixed
(price, points) order used at line 135: stored per-feature mean and
standard deviation. -/
structure StandardScaler where
  mean1 : ℚ
  std1 : ℚ
  mean2 : ℚ
  std2 : ℚ

/-- Line 135: `scaler.transform([[wine.price, wine.points]])`, computing
`(x - mean) / std` per feature with the stored statistics. -/
def scalerTransform (sc : StandardScaler) (price points : ℚ) : List ℚ :=
  [(price - sc.mean1) / sc.std1, (points - sc.mean2) / sc.std2]

/-- A fitted classifier (`rf_model` / `xgb_model`): an ordered class label
list `classes` (the `classes_` attribute) and the fitted probability
function `proba` behind `predict_proba`; `nFeatures` is the feature count
the model was fitted on — `predict_proba` raises on any row whose width
differs from it. -/
structure Classifier where
  nFeatures : ℕ
  proba : List ℚ → List ℚ
  classes : List String

/-- The five fitted artifacts loaded at startup (lines 62-66). -/
structure Artifacts where
  tfidf : TfidfVectorizer
  encoder : OneHotEncoder
  scaler : StandardScaler
  rf : Classifier
  xgb : Classifier

/-- Lines 125-138: preprocess text, variety and numeric features and
`np.hstack` them, in the fixed order text, category, numeric. -/
def assembleFeatures (arts : Artifacts) (wine : WineInput) : List ℚ :=
  arts.tfidf.transform wine.description
    ++ encodeVarietyOrZero arts.encoder wine.variety
    ++ scalerTransform arts.scaler wine.price wine.points

/-- The first index attaining the maximum of a list, the semantics of
`np.argmax` (line 146): on ties, the earliest index wins.  Returns 0 on
the empty list; the pipeline never reaches that case because `np.argmax`
raises on an empty array, which the embedding checks separately. -/
def argmaxList : List ℚ → ℕ
  | [] => 0
  | [_] => 0
  | x :: y :: ys =>
      let j := argmaxList (y :: ys)
      if x < (y :: ys).getD j 0 then j + 1 else 0

/-- Specification predicate: `i` is the first index attaining the maximum
of `l` — it is in bounds, no element exceeds `l[i]`, and every earlier
element is strictly below `l[i]`. -/
def isFirstArgmax (l : List ℚ) (i : ℕ) : Prop :=
  i < l.length ∧
    (∀ j, j < l.length → l.getD j 0 ≤ l.getD i 0) ∧
    (∀ j, j < i → l.getD j 0 < l.getD i 0)

/-- The core prediction result: the chosen label and the confidence map
(the zip of classifier A's class list with the averaged probabilities,
mirroring the dict comprehension at lines 150-153). -/
structure PredictionCore where
  predicted_country : String
  confidence_scores : List (String × ℚ)
deriving DecidableEq

/-- Lines 121-162 without the transport wrapper: assemble the features,
query both classifiers, average, arg-max, and zip classifier A's classes
with the averaged vector.  Each Python exception the sequence can raise
becomes an `Except.error` with diagnostic text: a feature row whose width
disagrees with a classifier's fitted feature count, probability vectors
that cannot be added elementwise, `np.argmax` on an empty array, and an
out-of-bounds class index. -/
def predictCore (arts : Artifacts) (wine : WineInput) : Except String PredictionCore :=
  let X := assembleFeatures arts wine
  if X.length = arts.rf.nFeatures then
    let pa := arts.rf.proba X
    if X.length = arts.xgb.nFeatures then
      let pb := arts.xgb.proba X
      if pa.length = pb.length then
        let avg := List.zipWith (fun a b => (a + b) / 2) pa pb
        if avg.isEmpty then
          .error "attempt to get argmax of an empty sequence"
        else
          let idx := argmaxList avg
          match arts.rf.classes[idx]? with
          | some c => .ok ⟨c, List.zip arts.rf.classes avg⟩
          | none => .error "class index out of bounds"
      else
        .error "operands could not be broadcast together"
    else
      .error "X has a feature count the second model does not expect"
  else
    .error "X has a feature count the first model does not expect"

/-- An HTTP-level failure signal: status code and detail string, as
carried by `HTTPException`. -/
structure HTTPError where
  status : ℕ
  detail : String
deriving DecidableEq

/-- The response model (`PredictionResponse`), with the timing metadata
the orchestration adds around the core result. -/
structure PredictionResponse where
  predicted_country : String
  confidence_scores : List (String × ℚ)
  prediction_time : ℚ
  timestamp : String
deriving DecidableEq

/-- Lines 59-72: startup loads the five artifacts inside one `try`; any
single failure (a `none` here) leaves the process without artifacts and
`MODELS_LOADED = False`. -/
def loadArtifacts (tf : Option TfidfVectorizer) (enc : Option OneHotEncoder)
    (sc : Option StandardScaler) (rf : Option Classifier) (xgb : Option Classifier) :
    Option Artifacts :=
  match tf, enc, sc, rf, xgb with
  | some tf, some enc, some sc, some rf, some xgb => some ⟨tf, enc, sc, rf, xgb⟩
  | _, _, _, _, _ => none

/-- The `MODELS_LOADED` flag: true exactly when all five artifacts loaded. -/
def MODELS_LOADED (tf : Option TfidfVectorizer) (enc : Option OneHotEncoder)
    (sc : Option StandardScaler) (rf : Option Classifier) (xgb : Option Classifier) : Bool :=
  (loadArtifacts tf enc sc rf xgb).isSome

/-- Lines 110-168, the `/predict` endpoint: refuse with 503 when the
artifacts are absent (lines 115-119), otherwise run the pipeline and
either package the core result with timing metadata (lines 155-162) or
surface any exception as a single 500 `Prediction error` (lines 164-168).
`startTime` and `endTime` model the two `time.time()` reads and
`timestamp` the `datetime.now()` read. -/
def predict_wine_origin (arts? : Option Artifacts) (wine : WineInput)
    (startTime endTime : ℚ) (timestamp : String) : Except HTTPError PredictionResponse :=
  match arts? with
  | none => .error ⟨503, "Models not loaded. Please check server logs."⟩
  | some arts =>
    match predictCore arts wine with
    | .ok r =>
        .ok ⟨r.predicted_country, r.confidence_scores, endTime - startTime, timestamp⟩
    | .error e => .error ⟨500, "Prediction error: " ++ e⟩

/-! Helper lemmas shared by the claim theorems. -/

/-- The recursive `argmaxList` returns the first index attaining the
maximum, matching the `np.argmax` tie-break policy. -/
theorem argmaxList_isFirstArgmax : ∀ (l : List ℚ), l ≠ [] → isFirstArgmax l (argmaxList l)
  | [], h => absurd rfl h
  | [x], _ => by
      refine ⟨by simp [argmaxList], ?_, ?_⟩
      · intro j hj
        have hj0 : j = 0 := by
          simp only [List.length_singleton] at hj
          omega
        simp [hj0, argmaxList]
      · intro j hj
        simp [argmaxList] at hj
  | x :: y :: ys, _ => by
      obtain ⟨ih1, ih2, ih3⟩ := argmaxList_isFirstArgmax (y :: ys) (by simp)
      unfold isFirstArgmax
      simp only [argmaxList]
      by_cases h : x < (y :: ys).getD (argmaxList (y :: ys)) 0
      · rw [if_pos h]
        refine ⟨?_, ?_, ?_⟩
        · simpa using Nat.succ_lt_succ ih1
        · intro k hk
          cases k with
          | zero => simpa using le_of_lt h
          | succ k =>
            simp only [List.getD_cons_succ]
            exact ih2 k (by simpa using hk)
        · intro k hk
          cases k with
          | zero => simpa using h
          | succ k =>
            simp only [List.getD_cons_succ]
            exact ih3 k (by omega)
      · rw [if_neg h]
        push_neg at h
        refine ⟨by simp, ?_, by omega⟩
        intro k hk
        cases k with
        | zero => simp
        | succ k =>
          simp only [List.getD_cons_succ, List.getD_cons_zero]
          exact le_trans (ih2 k (by simpa using hk)) h

/-- Summing the elementwise average of two equal-length lists halves the
sum of their sums. -/
theorem sum_zipWith_avg : ∀ (pa pb : List ℚ), pa.length = pb.length →
    (List.zipWith (fun a b => (a + b) / 2) pa pb).sum = (pa.sum + pb.sum) / 2
  | [], [], _ => by simp
  | [], _ :: _, h => by simp at h
  | _ :: _, [], h => by simp at h
  | a :: pa, b :: pb, h => by
      have ih := sum_zipWith_avg pa pb (by simpa using h)
      simp only [List.zipWith_cons_cons, List.sum_cons, ih]
      ring

/-- The variety encoding step always yields a vector of the encoder's
output width `C`, on both the one-hot and the zero-substitution branch. -/
theorem encodeVarietyOrZero_length (enc : OneHotEncoder) (v : String) :
    (encodeVarietyOrZero enc v).length = enc.categories.length := by
  unfold encodeVarietyOrZero oneHotTransform
  by_cases h : v ∈ enc.categories <;> simp [h]

/-- The assembled feature row has width `V + C + 2`. -/
theorem assembleFeatures_length (arts : Artifacts) (wine : WineInput) :
    (assembleFeatures arts wine).length =
      (arts.tfidf.transform wine.description).length + arts.encoder.categories.length + 2 := by
  simp [assembleFeatures, encodeVarietyOrZero_length, scalerTransform]
  omega

/-- Successful run of the pipeline core: when the feature row fits both
classifiers, the probability vectors have equal positive length matching
classifier A's class count, the result is the arg-max class of the
averaged vector zipped with classifier A's classes. -/
theorem predictCore_ok (arts : Artifacts) (wine : WineInput)
    (hrf : (assembleFeatures arts wine).length = arts.rf.nFeatures)
    (hxgb : (assembleFeatures arts wine).length = arts.xgb.nFeatures)
    (hlen : (arts.rf.proba (assembleFeatures arts wine)).length
          = (arts.xgb.proba (assembleFeatures arts wine)).length)
    (hcls : arts.rf.classes.length = (arts.rf.proba (assembleFeatures arts wine)).length)
    (hne : arts.rf.proba (assembleFeatures arts wine) ≠ []) :
    predictCore arts wine = .ok
      ⟨arts.rf.classes.getD (argmaxList (List.zipWith (fun a b => (a + b) / 2)
          (arts.rf.proba (assembleFeatures arts wine))
          (arts.xgb.proba (assembleFeatures arts wine)))) "",
        List.zip arts.rf.classes (List.zipWith (fun a b => (a + b) / 2)
          (arts.rf.proba (assembleFeatures arts wine))
          (arts.xgb.proba (assembleFeatures arts wine)))⟩ := by
  have havglen : (List.zipWith (fun a b : ℚ => (a + b) / 2)
      (arts.rf.proba (assembleFeatures arts wine))
      (arts.xgb.proba (assembleFeatures arts wine))).length
      = (arts.rf.proba (assembleFeatures arts wine)).length := by
    simp [List.length_zipWith, hlen]
  have havgne : (List.zipWith (fun a b : ℚ => (a + b) / 2)
      (arts.rf.proba (assembleFeatures arts wine))
      (arts.xgb.proba (assembleFeatures arts wine))) ≠ [] := by
    intro hempty
    apply hne
    rw [← List.length_eq_zero] at hempty ⊢
    omega
  have hidx : argmaxList (List.zipWith (fun a b : ℚ => (a + b) / 2)
      (arts.rf.proba (assembleFeatures arts wine))
      (arts.xgb.proba (assembleFeatures arts wine))) < arts.rf.classes.length := by
    have := (argmaxList_isFirstArgmax _ havgne).1
    omega
  have hsome : arts.rf.classes[argmaxList (List.zipWith (fun a b : ℚ => (a + b) / 2)
      (arts.rf.proba (assembleFeatures arts wine))
      (arts.xgb.proba (assembleFeatures arts wine)))]?
      = some (arts.rf.classes.getD (argmaxList (List.zipWith (fun a b : ℚ => (a + b) / 2)
          (arts.rf.proba (assembleFeatures arts wine))
          (arts.xgb.proba (assembleFeatures arts wine)))) "") := by
    rw [List.getElem?_eq_getElem hidx, List.getD_eq_getElem _ _ hidx]
  simp only [predictCore]
  rw [if_pos hrf, if_pos hxgb, if_pos hlen, if_neg (by simp [havgne]), hsome]

/-- The averaged probability vector is nonempty whenever classifier A's
probability vector is nonempty and the two vectors have equal length. -/
theorem zipWith_avg_ne_nil {pa pb : List ℚ} (hlen : pa.length = pb.length)
    (hne : pa ≠ []) : List.zipWith (fun a b => (a + b) / 2) pa pb ≠ [] := by
  intro hempty
  apply hne
  rw [← List.length_eq_zero] at hempty ⊢
  rw [List.length_zipWith] at hempty
  omega

/-- Claim C1: for every feature vector, the ensemble prediction averages
the two classifiers' per-class probability vectors elementwise as
(P_a + P_b) / 2, takes the predicted label as the class at the first index
attaining the maximum of the average (deterministic first-index
tie-break), and builds the confidence map by zipping the class label set
with the averaged vector. -/
theorem ensemble_average_first_argmax_zip (arts : Artifacts) (wine : WineInput)
    (pa pb avg : List ℚ)
    (hpa : pa = arts.rf.proba (assembleFeatures arts wine))
    (hpb : pb = arts.xgb.proba (assembleFeatures arts wine))
    (havg : avg = List.zipWith (fun a b => (a + b) / 2) pa pb)
    (hrf : (assembleFeatures arts wine).length = arts.rf.nFeatures)
    (hxgb : (assembleFeatures arts wine).length = arts.xgb.nFeatures)
    (hlen : pa.length = pb.length)
    (hcls : arts.rf.classes.length = pa.length)
    (hne : pa ≠ []) :
    predictCore arts wine =
        .ok ⟨arts.rf.classes.getD (argmaxList avg) "", List.zip arts.rf.classes avg⟩
      ∧ isFirstArgmax avg (argmaxList avg)
      ∧ ∀ k, k < pa.length → avg.getD k 0 = (pa.getD k 0 + pb.getD k 0) / 2 := by
  subst hpa
  subst hpb
  subst havg
  refine ⟨predictCore_ok arts wine hrf hxgb hlen hcls hne, ?_, ?_⟩
  · exact argmaxList_isFirstArgmax _ (zipWith_avg_ne_nil hlen hne)
  · intro k hk
    have hk2 : k < (arts.xgb.proba (assembleFeatures arts wine)).length := by omega
    have hk1 : k < (List.zipWith (fun a b : ℚ => (a + b) / 2)
        (arts.rf.proba (assembleFeatures arts wine))
        (arts.xgb.proba (assembleFeatures arts wine))).length := by
      rw [List.length_zipWith]
      omega
    rw [List.getD_eq_getElem _ _ hk1, List.getD_eq_getElem _ _ hk,
      List.getD_eq_getElem _ _ hk2]
    simp

/-- Claim C2: for every valid input, the assembled feature vector is the
concatenation of the text vector, the category vector, and the numeric
vector, in exactly that fixed order, and its length equals
`len(text_features) + len(variety_features) + 2`. -/
theorem feature_vector_order_and_length (arts : Artifacts) (wine : WineInput)
    (hV : (arts.tfidf.transform wine.description).length = arts.tfidf.width) :
    assembleFeatures arts wine
        = arts.tfidf.transform wine.description
            ++ encodeVarietyOrZero arts.encoder wine.variety
            ++ scalerTransform arts.scaler wine.price wine.points
      ∧ (assembleFeatures arts wine).length
        = arts.tfidf.width + arts.encoder.categories.length + 2 := by
  refine ⟨rfl, ?_⟩
  rw [assembleFeatures_length, hV]

/-- Claim C3: for every variety string not present in the trained category
set, the pipeline substitutes the all-zero vector of length C (the
encoder's output width) in place of the failed encoding, surfaces no
error for this case, and still produces a valid prediction. -/
theorem unknown_variety_zero_fallback (arts : Artifacts) (wine : WineInput)
    (hunk : wine.variety ∉ arts.encoder.categories)
    (hrf : (assembleFeatures arts wine).length = arts.rf.nFeatures)
    (hxgb : (assembleFeatures arts wine).length = arts.xgb.nFeatures)
    (hlen : (arts.rf.proba (assembleFeatures arts wine)).length
          = (arts.xgb.proba (assembleFeatures arts wine)).length)
    (hcls : arts.rf.classes.length = (arts.rf.proba (assembleFeatures arts wine)).length)
    (hne : arts.rf.proba (assembleFeatures arts wine) ≠ []) :
    oneHotTransform arts.encoder wine.variety = none
      ∧ encodeVarietyOrZero arts.encoder wine.variety
        = List.replicate arts.encoder.categories.length 0
      ∧ ∃ r, predictCore arts wine = .ok r := by
  have h1 : oneHotTransform arts.encoder wine.variety = none := by
    unfold oneHotTransform
    rw [if_neg hunk]
  refine ⟨h1, ?_, ?_⟩
  · unfold encodeVarietyOrZero
    rw [h1]
  · exact ⟨_, predictCore_ok arts wine hrf hxgb hlen hcls hne⟩

/-- Claim C4: for every valid input, assuming each classifier returns a
probability distribution summing to 1 over a duplicate-free label set,
the values of `confidence_scores` sum to 1.0 within 1e-6, and
`predicted_country` equals the key of `confidence_scores` holding the
maximum value. -/
theorem confidence_sums_to_one_argmax_key (arts : Artifacts) (wine : WineInput)
    (pa pb : List ℚ)
    (hpa : pa = arts.rf.proba (assembleFeatures arts wine))
    (hpb : pb = arts.xgb.proba (assembleFeatures arts wine))
    (hrf : (assembleFeatures arts wine).length = arts.rf.nFeatures)
    (hxgb : (assembleFeatures arts wine).length = arts.xgb.nFeatures)
    (hlen : pa.length = pb.length)
    (hcls : arts.rf.classes.length = pa.length)
    (_hnodup : arts.rf.classes.Nodup)
    (hsa : pa.sum = 1) (hsb : pb.sum = 1)
    (hne : pa ≠ []) :
    ∃ r, predictCore arts wine = .ok r
      ∧ |(r.confidence_scores.map Prod.snd).sum - 1| ≤ 1 / 1000000
      ∧ ∃ v, (r.predicted_country, v) ∈ r.confidence_scores
          ∧ ∀ p ∈ r.confidence_scores, p.2 ≤ v := by
  subst hpa
  subst hpb
  obtain ⟨hidx, hmax, -⟩ :=
    argmaxList_isFirstArgmax _ (zipWith_avg_ne_nil hlen hne)
  have havgl : (List.zipWith (fun a b : ℚ => (a + b) / 2)
      (arts.rf.proba (assembleFeatures arts wine))
      (arts.xgb.proba (assembleFeatures arts wine))).length
      = (arts.rf.proba (assembleFeatures arts wine)).length := by
    rw [List.length_zipWith]
    omega
  refine ⟨_, predictCore_ok arts wine hrf hxgb hlen hcls hne, ?_, ?_⟩
  · rw [List.map_snd_zip _ _ (by omega), sum_zipWith_avg _ _ hlen, hsa, hsb]
    norm_num
  · have hidxc : argmaxList (List.zipWith (fun a b : ℚ => (a + b) / 2)
        (arts.rf.proba (assembleFeatures arts wine))
        (arts.xgb.proba (assembleFeatures arts wine))) < arts.rf.classes.length := by
      omega
    refine ⟨(List.zipWith (fun a b : ℚ => (a + b) / 2)
        (arts.rf.proba (assembleFeatures arts wine))
        (arts.xgb.proba (assembleFeatures arts wine))).getD
          (argmaxList (List.zipWith (fun a b : ℚ => (a + b) / 2)
            (arts.rf.proba (assembleFeatures arts wine))
            (arts.xgb.proba (assembleFeatures arts wine)))) 0, ?_, ?_⟩
    · rw [List.mem_iff_getElem]
      refine ⟨argmaxList (List.zipWith (fun a b : ℚ => (a + b) / 2)
          (arts.rf.proba (assembleFeatures arts wine))
          (arts.xgb.proba (assembleFeatures arts wine))), ?_, ?_⟩
      · rw [List.length_zip]
        omega
      · rw [List.getElem_zip, List.getD_eq_getElem _ _ hidxc, List.getD_eq_getElem _ _ hidx]
    · rintro ⟨a, b⟩ hp
      have hb := (List.of_mem_zip hp).2
      obtain ⟨j, hj, hjeq⟩ := List.mem_iff_getElem.mp hb
      have := hmax j hj
      rw [List.getD_eq_getElem _ _ hj] at this
      simpa [hjeq] using this

/-- Claim C5: for every input and every pair of fitted classifiers —
including a pair whose class label sets differ — the predict operation
performs no runtime check that the two classifiers' label sets are
identical, and the output label and the keys of `confidence_scores` are
drawn solely from classifier A's class list; classifier B's label
ordering is never consulted when naming classes. -/
theorem labels_come_only_from_classifier_A (arts : Artifacts) (wine : WineInput) :
    (∀ cs : List String,
        predictCore { arts with xgb := { arts.xgb with classes := cs } } wine
          = predictCore arts wine)
      ∧ ∀ r, predictCore arts wine = .ok r →
          r.predicted_country ∈ arts.rf.classes
            ∧ ∀ p ∈ r.confidence_scores, p.1 ∈ arts.rf.classes := by
  constructor
  · intro cs
    rfl
  · intro r hr
    simp only [predictCore] at hr
    split at hr
    · split at hr
      · split at hr
        · split at hr
          · simp at hr
          · split at hr
            · rename_i c heq
              rw [Except.ok.injEq] at hr
              subst hr
              constructor
              · exact List.getElem?_mem heq
              · rintro ⟨a, b⟩ hp
                exact (List.of_mem_zip hp).1
            · simp at hr
        · simp at hr
      · simp at hr
    · simp at hr

/-- Claim C6: the scaler applies (x - mean) / std per feature in the
fixed (price, points) input order, and for every pair of numbers
p1 ≠ p2 (with finite nonzero stored standard deviations),
scale(p1, p2) ≠ scale(p2, p1). -/
theorem scaler_order_sensitive (sc : StandardScaler) (p q : ℚ)
    (hs1 : sc.std1 ≠ 0) (_hs2 : sc.std2 ≠ 0) (hpq : p ≠ q) :
    scalerTransform sc p q = [(p - sc.mean1) / sc.std1, (q - sc.mean2) / sc.std2]
      ∧ scalerTransform sc p q ≠ scalerTransform sc q p := by
  refine ⟨rfl, ?_⟩
  intro h
  simp only [scalerTransform, List.cons.injEq, and_true] at h
  obtain ⟨h1, -⟩ := h
  apply hpq
  field_simp at h1
  linarith

/-- Claim C7: if any of the five fitted artifacts fails to load at
startup, the pipeline marks itself unready, and every subsequent
prediction request is refused with a service-unavailable signal (no
prediction is attempted) until the process restarts. -/
theorem artifact_load_failure_refuses_requests (tf : Option TfidfVectorizer)
    (enc : Option OneHotEncoder) (sc : Option StandardScaler)
    (rf xgb : Option Classifier)
    (hfail : tf = none ∨ enc = none ∨ sc = none ∨ rf = none ∨ xgb = none) :
    MODELS_LOADED tf enc sc rf xgb = false
      ∧ ∀ (wine : WineInput) (startTime endTime : ℚ) (timestamp : String),
          predict_wine_origin (loadArtifacts tf enc sc rf xgb) wine startTime endTime timestamp
            = .error ⟨503, "Models not loaded. Please check server logs."⟩ := by
  have hnone : loadArtifacts tf enc sc rf xgb = none := by
    cases tf <;> cases enc <;> cases sc <;> cases rf <;> cases xgb <;>
      simp_all [loadArtifacts]
  constructor
  · unfold MODELS_LOADED
    rw [hnone]
    rfl
  intro wine startTime endTime timestamp
  rw [hnone]
  rfl

/-- Claim C8: every failure inside the prediction sequence other than the
unseen-category case — in particular a feature vector whose
dimensionality disagrees with the classifiers' expectations — surfaces a
single generic prediction failure carrying diagnostic text, with no retry
and no partial result; only the unseen-category condition is absorbed
inside the pipeline. -/
theorem internal_failure_becomes_generic_500 (arts : Artifacts) (wine : WineInput) :
    (∀ e, predictCore arts wine = .error e →
        ∀ (startTime endTime : ℚ) (timestamp : String),
          predict_wine_origin (some arts) wine startTime endTime timestamp
            = .error ⟨500, "Prediction error: " ++ e⟩)
      ∧ ((assembleFeatures arts wine).length ≠ arts.rf.nFeatures →
          ∃ e, predictCore arts wine = .error e)
      ∧ (wine.variety ∉ arts.encoder.categories →
          oneHotTransform arts.encoder wine.variety = none
            ∧ encodeVarietyOrZero arts.encoder wine.variety
              = List.replicate arts.encoder.categories.length 0) := by
  refine ⟨?_, ?_, ?_⟩
  · intro e he startTime endTime timestamp
    simp only [predict_wine_origin, he]
  · intro hdim
    refine ⟨"X has a feature count the first model does not expect", ?_⟩
    simp only [predictCore]
    rw [if_neg hdim]
  · intro hunk
    have h1 : oneHotTransform arts.encoder wine.variety = none := by
      unfold oneHotTransform
      rw [if_neg hunk]
    refine ⟨h1, ?_⟩
    unfold encodeVarietyOrZero
    rw [h1]

/-- Claim C9: for every valid input, invoking the pipeline twice with the
identical input yields identical `predicted_country` and identical
`confidence_scores` across the two runs; only the timing metadata may
differ between the runs. -/
theorem pipeline_idempotent_modulo_timing (arts? : Option Artifacts) (wine : WineInput)
    (startTime1 endTime1 : ℚ) (timestamp1 : String)
    (startTime2 endTime2 : ℚ) (timestamp2 : String) :
    Except.map (fun r => (r.predicted_country, r.confidence_scores))
        (predict_wine_origin arts? wine startTime1 endTime1 timestamp1)
      = Except.map (fun r => (r.predicted_country, r.confidence_scores))
        (predict_wine_origin arts? wine startTime2 endTime2 timestamp2) := by
  cases arts? with
  | none => rfl
  | some arts =>
    simp only [predict_wine_origin]
    cases predictCore arts wine <;> rfl

/-- Claim C10: for each of the boundary inputs points = 0, points = 100,
price = 0 and price = 10000, the scaler applies its linear transform and
returns a result without error; no range check rejects in-bound or
boundary values. -/
theorem boundary_values_always_scaled (sc : StandardScaler) :
    scalerTransform sc 0 0 = [(0 - sc.mean1) / sc.std1, (0 - sc.mean2) / sc.std2]
      ∧ scalerTransform sc 0 100 = [(0 - sc.mean1) / sc.std1, (100 - sc.mean2) / sc.std2]
      ∧ scalerTransform sc 10000 0 = [(10000 - sc.mean1) / sc.std1, (0 - sc.mean2) / sc.std2]
      ∧ scalerTransform sc 10000 100
        = [(10000 - sc.mean1) / sc.std1, (100 - sc.mean2) / sc.std2]
      ∧ ∀ price pts, (scalerTransform sc price pts).length = 2 :=
  ⟨rfl, rfl, rfl, rfl, fun _ _ => rfl⟩

/-! Concrete fitted artifacts and inputs on which the theorems are
exercised. -/

/-- Concrete fitted artifacts: vocabulary width 1, a single trained
category, two classes, assembled feature width 4. -/
def demoArtifacts : Artifacts :=
  ⟨⟨1, fun _ => [1]⟩, ⟨["Cabernet Sauvignon"]⟩, ⟨10, 2, 50, 5⟩,
    ⟨4, fun _ => [3/10, 7/10], ["France", "Italy"]⟩,
    ⟨4, fun _ => [1/2, 1/2], ["France", "Italy"]⟩⟩

/-- The example request body served by the `/example` endpoint. -/
def demoWine : WineInput :=
  ⟨"A rich and full-bodied wine with notes of black cherry and vanilla", 92, 45,
    "Cabernet Sauvignon"⟩

/-- A wine whose variety is absent from the trained category set. -/
def demoWineUnknown : WineInput :=
  ⟨"A rich and full-bodied wine with notes of black cherry and vanilla", 92, 45,
    "Zzz-Unknown-Grape-000"⟩

/-- Artifacts whose two classifiers carry different class label sets. -/
def demoArtifactsMixed : Artifacts :=
  ⟨⟨1, fun _ => [1]⟩, ⟨["Cabernet Sauvignon"]⟩, ⟨10, 2, 50, 5⟩,
    ⟨4, fun _ => [3/10, 7/10], ["France", "Italy"]⟩,
    ⟨4, fun _ => [1/2, 1/2], ["Spain"]⟩⟩

/-- Artifacts whose first classifier expects a feature width the
assembled vector does not have. -/
def demoArtifactsBad : Artifacts :=
  ⟨⟨1, fun _ => [1]⟩, ⟨["Cabernet Sauvignon"]⟩, ⟨10, 2, 50, 5⟩,
    ⟨5, fun _ => [3/10, 7/10], ["France", "Italy"]⟩,
    ⟨4, fun _ => [1/2, 1/2], ["France", "Italy"]⟩⟩

/-- The core result of running the mixed-label artifacts on the example
wine. -/
def demoMixedResult : PredictionCore :=
  ⟨"Italy", [("France", 2/5), ("Italy", 3/5)]⟩

/-- The diagnostic text raised for a feature row that does not fit the
first classifier. -/
def demoDimError : String := "X has a feature count the first model does not expect"

/-- Witness for C1 at the example artifacts and wine. -/
theorem ensemble_average_first_argmax_zip_witness :
    predictCore demoArtifacts demoWine =
        .ok ⟨demoArtifacts.rf.classes.getD (argmaxList [2/5, 3/5]) "",
          List.zip demoArtifacts.rf.classes [2/5, 3/5]⟩
      ∧ isFirstArgmax [2/5, 3/5] (argmaxList [2/5, 3/5])
      ∧ ∀ k, k < ([3/10, 7/10] : List ℚ).length →
          ([2/5, 3/5] : List ℚ).getD k 0
            = (([3/10, 7/10] : List ℚ).getD k 0 + ([1/2, 1/2] : List ℚ).getD k 0) / 2 :=
  ensemble_average_first_argmax_zip demoArtifacts demoWine [3/10, 7/10] [1/2, 1/2]
    [2/5, 3/5] (by rfl) (by rfl) (by norm_num) (by rfl) (by rfl) (by rfl) (by rfl)
    (by decide)

/-- Witness for C2 at the example artifacts and wine. -/
theorem feature_vector_order_and_length_witness :
    assembleFeatures demoArtifacts demoWine
        = demoArtifacts.tfidf.transform demoWine.description
            ++ encodeVarietyOrZero demoArtifacts.encoder demoWine.variety
            ++ scalerTransform demoArtifacts.scaler demoWine.price demoWine.points
      ∧ (assembleFeatures demoArtifacts demoWine).length
        = demoArtifacts.tfidf.width + demoArtifacts.encoder.categories.length + 2 :=
  feature_vector_order_and_length demoArtifacts demoWine (by rfl)

/-- Witness for C3 at the example artifacts and the unknown-variety wine. -/
theorem unknown_variety_zero_fallback_witness :
    oneHotTransform demoArtifacts.encoder demoWineUnknown.variety = none
      ∧ encodeVarietyOrZero demoArtifacts.encoder demoWineUnknown.variety
        = List.replicate demoArtifacts.encoder.categories.length 0
      ∧ ∃ r, predictCore demoArtifacts demoWineUnknown = .ok r :=
  unknown_variety_zero_fallback demoArtifacts demoWineUnknown (by decide) (by decide)
    (by decide) (by rfl) (by rfl) (by decide)

/-- Witness for C4 at the example artifacts and wine. -/
theorem confidence_sums_to_one_argmax_key_witness :
    ∃ r, predictCore demoArtifacts demoWine = .ok r
      ∧ |(r.confidence_scores.map Prod.snd).sum - 1| ≤ 1 / 1000000
      ∧ ∃ v, (r.predicted_country, v) ∈ r.confidence_scores
          ∧ ∀ p ∈ r.confidence_scores, p.2 ≤ v :=
  confidence_sums_to_one_argmax_key demoArtifacts demoWine [3/10, 7/10] [1/2, 1/2]
    (by rfl) (by rfl) (by decide) (by decide) (by rfl) (by rfl) (by decide)
    (by norm_num) (by norm_num) (by decide)

/-- Witness for C5: the two classifiers of `demoArtifactsMixed` disagree
on their class label sets, no runtime check rejects the pair, and the
output labels come from classifier A's class list. -/
theorem labels_come_only_from_classifier_A_witness :
    predictCore demoArtifactsMixed demoWine = .ok demoMixedResult
      ∧ (demoMixedResult.predicted_country ∈ demoArtifactsMixed.rf.classes
          ∧ ∀ p ∈ demoMixedResult.confidence_scores, p.1 ∈ demoArtifactsMixed.rf.classes) := by
  have hcore : predictCore demoArtifactsMixed demoWine = .ok demoMixedResult := by
    rw [predictCore_ok demoArtifactsMixed demoWine (by decide) (by decide) (by rfl)
      (by rfl) (by decide)]
    norm_num [demoArtifactsMixed, demoMixedResult, argmaxList]
  exact ⟨hcore,
    (labels_come_only_from_classifier_A demoArtifactsMixed demoWine).2 demoMixedResult
      hcore⟩

/-- Witness for C6 at the example scaler and the pair (45, 92). -/
theorem scaler_order_sensitive_witness :
    scalerTransform demoArtifacts.scaler 45 92
        = [(45 - demoArtifacts.scaler.mean1) / demoArtifacts.scaler.std1,
            (92 - demoArtifacts.scaler.mean2) / demoArtifacts.scaler.std2]
      ∧ scalerTransform demoArtifacts.scaler 45 92
        ≠ scalerTransform demoArtifacts.scaler 92 45 :=
  scaler_order_sensitive demoArtifacts.scaler 45 92 (by decide) (by decide) (by decide)

/-- Witness for C7: with all five artifacts failing to load, every request
is refused with the 503 signal. -/
theorem artifact_load_failure_refuses_requests_witness :
    MODELS_LOADED none none none none none = false
      ∧ ∀ (wine : WineInput) (startTime endTime : ℚ) (timestamp : String),
          predict_wine_origin (loadArtifacts none none none none none) wine startTime endTime
            timestamp = .error ⟨503, "Models not loaded. Please check server logs."⟩ :=
  artifact_load_failure_refuses_requests none none none none none (Or.inl rfl)

/-- Witness for C8: a feature row of width 4 against a classifier fitted
on width 5 surfaces the single generic 500 prediction error. -/
theorem internal_failure_becomes_generic_500_witness :
    predict_wine_origin (some demoArtifactsBad) demoWine 0 1 "now"
        = .error ⟨500, "Prediction error: " ++ demoDimError⟩ :=
  (internal_failure_becomes_generic_500 demoArtifactsBad demoWine).1 demoDimError
    (by rfl) 0 1 "now"
